import Mathlib

/-!
Shallow embedding of `src/plugins/state_monitor.py` (the `StateMonitor`
pipeline step and the `SlackSender` delivery channel).

Samples are mappings from field names to data values; only the numeric
`.value` payload is ever read by the monitor, so values are modelled as
rationals.  Python exceptions are modelled explicitly: subscripting a
missing key raises `KeyError`, subscripting `None` raises `TypeError`,
calling `.items()` on `None` raises `AttributeError`, and a failing
`sender.send` raises.  Log and dispatch side effects are modelled as an
event trace; message strings are abstracted to tagged messages carrying
their numeric payloads (the exact `str.format` rendering is not modelled).
-/

/-- Exceptions that the modelled code can raise. -/
inductive Err where
  | keyError (k : String)
  | typeError
  | attributeError
  | sendError
  | runtimeWarning
  deriving DecidableEq, Repr

/-- Messages built by the three rules in `StateMonitor.execute`;
the float formatting of the Python f-strings is abstracted away, the
numeric payloads are kept. -/
inductive Msg where
  | powerDrop (pre now : ℚ)
  | commLoss
  | criticalLed (state : ℚ)
  deriving DecidableEq, Repr

/-- Observable side effects of one tick: a rule logging its message
(`logger.info(msg)`), a successful `sender.send` of a message, and the
error record written by the `except` handler. -/
inductive Ev where
  | info (m : Msg)
  | sent (m : Msg)
  | errorLogged (e : Err)
  deriving DecidableEq, Repr

/-- Data value held in a sample; only `.value` is read by the monitor. -/
structure DataValue where
  value : ℚ
  deriving DecidableEq, Repr

/-- Sample: a mapping from field name to `DataValue`, modelled as an
association list with Python-dict lookup semantics (keys are unique in a
dict, so first-match lookup is faithful). -/
abbrev Sample := List (String × DataValue)

/-- Dictionary lookup on a sample. -/
def Sample.find : Sample → String → Option DataValue
  | [], _ => none
  | (k', v) :: rest, k => if k = k' then some v else Sample.find rest k

/-- Python subscript `data[key]` where `data` may be `None`:
raises `TypeError` on `None`, `KeyError` on a missing key. -/
def subscr : Option Sample → String → Except Err DataValue
  | none, _ => .error .typeError
  | some s, k =>
      match s.find k with
      | none => .error (.keyError k)
      | some v => .ok v

/-- The helper `now_then(key)` from `StateMonitor.execute`: returns
`(input_data[key].value, self._previous_data[key].value)`, evaluating the
current sample first, as Python does. -/
def now_then (input prev : Option Sample) (k : String) : Except Err (ℚ × ℚ) :=
  match subscr input k with
  | .error e => .error e
  | .ok a =>
      match subscr prev k with
      | .error e => .error e
      | .ok b => .ok (a.value, b.value)

/-- Behaviour of the configured sender: absent (`method=None`), present and
delivering, or present and raising on `send`. -/
inductive SendBehavior where
  | ok
  | raises
  deriving DecidableEq, Repr

/-- Events and possible exception of one firing rule body:
`self.logger.info(msg)` followed by `self.send_message(msg)` (which calls
`sender.send` only when a sender is configured, and may raise). -/
def ruleFire (sender : Option SendBehavior) (m : Msg) : List Ev × Option Err :=
  match sender with
  | none => ([.info m], none)
  | some .ok => ([.info m, .sent m], none)
  | some .raises => ([.info m], some .sendError)

/-- Sequencing of two statements under Python exception semantics: the
second runs only when the first did not raise; events of the first are
kept either way. -/
def pySeq (a : List Ev × Option Err) (b : Unit → List Ev × Option Err) :
    List Ev × Option Err :=
  match a with
  | (evs, some e) => (evs, some e)
  | (evs, none) =>
      match b () with
      | (evs2, r) => (evs ++ evs2, r)

/-- Power-drop rule (`StateMonitor.execute`, lines 102-110): reads
`adc_vl_f` and `adc_il_f` from both samples, fires when
`power_now < power_delim` and `power_pre > power_delim`. -/
def powerStep (power_delim : ℚ) (sender : Option SendBehavior)
    (input prev : Option Sample) : List Ev × Option Err :=
  match now_then input prev "adc_vl_f" with
  | .error e => ([], some e)
  | .ok (load_now, load_pre) =>
      match now_then input prev "adc_il_f" with
      | .error e => ([], some e)
      | .ok (curr_now, curr_pre) =>
          if load_now * curr_now < power_delim ∧ load_pre * curr_pre > power_delim then
            ruleFire sender (.powerDrop (load_pre * curr_pre) (load_now * curr_now))
          else ([], none)

/-- Communication rule (`StateMonitor.execute`, lines 112-118): reads
`ping` from both samples, fires when the current value is truthy and the
previous value is falsy (`if comm_now and not comm_pre`). -/
def commStep (sender : Option SendBehavior)
    (input prev : Option Sample) : List Ev × Option Err :=
  match now_then input prev "ping" with
  | .error e => ([], some e)
  | .ok (comm_now, comm_pre) =>
      if comm_now ≠ 0 ∧ comm_pre = 0 then
        ruleFire sender .commLoss
      else ([], none)

/-- LED-state rule (`StateMonitor.execute`, lines 131-137): reads
`led_state` from both samples, fires when the current code is `≥ 12` and
differs from the previous code. -/
def ledStep (sender : Option SendBehavior)
    (input prev : Option Sample) : List Ev × Option Err :=
  match now_then input prev "led_state" with
  | .error e => ([], some e)
  | .ok (state_now, state_pre) =>
      if state_now ≥ 12 ∧ state_now ≠ state_pre then
        ruleFire sender (.criticalLed state_now)
      else ([], none)

/-- Body of the `try` block of `StateMonitor.execute`: the three rules in
order, each statement reached only if the previous ones did not raise. -/
def tryBody (power_delim : ℚ) (sender : Option SendBehavior)
    (input prev : Option Sample) : List Ev × Option Err :=
  pySeq (powerStep power_delim sender input prev)
    (fun _ => pySeq (commStep sender input prev)
      (fun _ => ledStep sender input prev))

/-- Diagnostic loop of the `except` handler (lines 145-149): it calls
`data.items()` on the current and then the previous sample; on `None`
this raises `AttributeError` out of `execute`. -/
def handlerDiag : Option Sample → Option Sample → Except Err Unit
  | none, _ => .error .attributeError
  | some _, none => .error .attributeError
  | some _, some _ => .ok ()

/-- State and configuration of a `StateMonitor` step: the configured
power threshold, the configured sender (with its behaviour), and the
stored previous sample (`None` before the first tick). -/
structure StateMonitor where
  power_delim : ℚ
  sender : Option SendBehavior
  previous_data : Option Sample
  deriving Repr

/-- Default value of the `power_delim` constructor argument. -/
def defaultPowerDelim : ℚ := 1

/-- Seeding of the previous sample at the top of `execute`
(lines 89-91): on the first iteration `_previous_data` is set to the
input, otherwise it is left as stored. -/
def seedPrev (m : StateMonitor) (input_data : Option Sample) : Option Sample :=
  match m.previous_data with
  | none => input_data
  | some p => some p

/-- Outcome of one call to `StateMonitor.execute`: the monitor state
after the call, the event trace, and either the returned value or the
exception that escaped to the caller. -/
structure ExecResult where
  monitor : StateMonitor
  events : List Ev
  result : Except Err (Option Sample)
  deriving Repr

/-- One tick of `StateMonitor.execute` (lines 72-155): seed the previous
sample on the first iteration, run the three rules inside `try`, on an
exception log it and dump both samples (which itself raises on `None`),
then unconditionally store the input as the new previous sample and
return the input unchanged. -/
def StateMonitor.execute (m : StateMonitor) (input_data : Option Sample) :
    ExecResult :=
  let prev := seedPrev m input_data
  match tryBody m.power_delim m.sender input_data prev with
  | (evs, none) =>
      ⟨{ m with previous_data := input_data }, evs, .ok input_data⟩
  | (evs, some e) =>
      match handlerDiag input_data prev with
      | .ok _ =>
          ⟨{ m with previous_data := input_data },
            evs ++ [.errorLogged e], .ok input_data⟩
      | .error e2 =>
          ⟨{ m with previous_data := prev }, evs ++ [.errorLogged e], .error e2⟩

/-- Whether an event is a power-drop rule firing being logged. -/
def Ev.isPowerInfo : Ev → Bool
  | .info (.powerDrop _ _) => true
  | _ => false

/-- Whether an event is a communication-loss rule firing being logged. -/
def Ev.isCommInfo : Ev → Bool
  | .info .commLoss => true
  | _ => false

/-- Whether an event is a critical-LED rule firing being logged. -/
def Ev.isLedInfo : Ev → Bool
  | .info (.criticalLed _) => true
  | _ => false

/-- Whether an event is a rule firing (logged or sent), as opposed to an
error record. -/
def Ev.isTrigger : Ev → Bool
  | .info _ => true
  | .sent _ => true
  | .errorLogged _ => false

/-- Whether a trace contains a power-drop firing. -/
def powerFired (evs : List Ev) : Bool := evs.any Ev.isPowerInfo

/-- Whether a trace contains a communication-loss firing. -/
def commFired (evs : List Ev) : Bool := evs.any Ev.isCommInfo

/-- Whether a trace contains a critical-LED firing. -/
def ledFired (evs : List Ev) : Bool := evs.any Ev.isLedInfo

/-- Observable effect of `SlackSender.send` (lines 240-258) after the
HTTP POST returned with the given status: on a status other than 200 it
logs a warning when a logger is attached, and otherwise raises
`RuntimeWarning`; the transported message itself is abstracted away.
The first component records whether a warning was logged. -/
def SlackSender.send (hasLogger : Bool) (status : Nat) : Bool × Option Err :=
  if status ≠ 200 then
    if hasLogger then (true, none)
    else (false, some .runtimeWarning)
  else (false, none)

/-- Whether an HTTP status is a 2xx success status. -/
def is2xx (status : Nat) : Prop := 200 ≤ status ∧ status < 300

instance (s : Nat) : Decidable (is2xx s) := by
  unfold is2xx; infer_instance

/-- Whether an event is a successful send of a power-drop message. -/
def Ev.isPowerSent : Ev → Bool
  | .sent (.powerDrop _ _) => true
  | _ => false

/-- Whether a trace contains a successful send of a power-drop message. -/
def powerSent (evs : List Ev) : Bool := evs.any Ev.isPowerSent

/-- Concrete sample: power-rule fields only, power `0`. -/
def crossIn : Sample := [("adc_vl_f", ⟨0⟩), ("adc_il_f", ⟨1⟩)]

/-- Concrete sample: power-rule fields only, power `2`. -/
def crossPre : Sample := [("adc_vl_f", ⟨2⟩), ("adc_il_f", ⟨1⟩)]

/-- Concrete sample: power-rule fields only, power exactly `1`. -/
def atDelimIn : Sample := [("adc_vl_f", ⟨1⟩), ("adc_il_f", ⟨1⟩)]

/-- Concrete sample: `ping` nonzero (sensor unreachable). -/
def pingIn : Sample := [("ping", ⟨1⟩)]

/-- Concrete sample: `ping` zero (sensor reachable). -/
def pingPre : Sample := [("ping", ⟨0⟩)]

/-- Concrete sample: critical LED code `13`. -/
def ledIn : Sample := [("led_state", ⟨13⟩)]

/-- Concrete sample: critical LED code `12`. -/
def ledPre : Sample := [("led_state", ⟨12⟩)]

/-- Concrete sample without the power-rule fields, with a pending
communication-loss and critical-LED transition. -/
def noPowerIn : Sample := [("ping", ⟨1⟩), ("led_state", ⟨13⟩)]

/-- Concrete previous sample without the power-rule fields. -/
def noPowerPre : Sample := [("ping", ⟨0⟩), ("led_state", ⟨5⟩)]

/-- Concrete sample with all monitored fields: power `0`, unreachable. -/
def fullIn : Sample := [("adc_vl_f", ⟨0⟩), ("adc_il_f", ⟨1⟩), ("ping", ⟨1⟩), ("led_state", ⟨5⟩)]

/-- Concrete previous sample with all monitored fields: power `2`, reachable. -/
def fullPre : Sample := [("adc_vl_f", ⟨2⟩), ("adc_il_f", ⟨1⟩), ("ping", ⟨0⟩), ("led_state", ⟨5⟩)]

/-- Evaluation of `now_then` when both samples hold the key. -/
lemma now_then_some {input prev : Sample} {k : String} {a b : DataValue}
    (h1 : input.find k = some a) (h2 : prev.find k = some b) :
    now_then (some input) (some prev) k = .ok (a.value, b.value) := by
  simp [now_then, subscr, h1, h2]

/-- Evaluation of `now_then` when the current sample misses the key. -/
lemma now_then_missing {input prev : Sample} {k : String}
    (h : input.find k = none) :
    now_then (some input) (some prev) k = .error (.keyError k) := by
  simp [now_then, subscr, h]

lemma powerFired_nil : powerFired [] = false := rfl

lemma powerFired_append (a b : List Ev) :
    powerFired (a ++ b) = (powerFired a || powerFired b) :=
  List.any_append

lemma powerFired_ruleFire_power (snd : Option SendBehavior) (pp pn : ℚ) :
    powerFired (ruleFire snd (.powerDrop pp pn)).1 = true := by
  cases snd with
  | none => rfl
  | some b => cases b <;> rfl

lemma powerFired_ruleFire_comm (snd : Option SendBehavior) :
    powerFired (ruleFire snd .commLoss).1 = false := by
  cases snd with
  | none => rfl
  | some b => cases b <;> rfl

lemma powerFired_ruleFire_led (snd : Option SendBehavior) (v : ℚ) :
    powerFired (ruleFire snd (.criticalLed v)).1 = false := by
  cases snd with
  | none => rfl
  | some b => cases b <;> rfl

lemma powerSent_append (a b : List Ev) :
    powerSent (a ++ b) = (powerSent a || powerSent b) :=
  List.any_append

lemma powerSent_ruleFire_comm (snd : Option SendBehavior) :
    powerSent (ruleFire snd .commLoss).1 = false := by
  cases snd with
  | none => rfl
  | some b => cases b <;> rfl

lemma powerSent_ruleFire_led (snd : Option SendBehavior) (v : ℚ) :
    powerSent (ruleFire snd (.criticalLed v)).1 = false := by
  cases snd with
  | none => rfl
  | some b => cases b <;> rfl

/-- The communication rule emits no power-drop events. -/
lemma powerFired_commStep (snd : Option SendBehavior) (i p : Option Sample) :
    powerFired (commStep snd i p).1 = false ∧ powerSent (commStep snd i p).1 = false := by
  unfold commStep
  cases h : now_then i p "ping" with
  | error e => simp [powerFired, powerSent]
  | ok v =>
      obtain ⟨cn, cp⟩ := v
      simp only
      split
      · exact ⟨powerFired_ruleFire_comm snd, powerSent_ruleFire_comm snd⟩
      · simp [powerFired, powerSent]

/-- The LED rule emits no power-drop events. -/
lemma powerFired_ledStep (snd : Option SendBehavior) (i p : Option Sample) :
    powerFired (ledStep snd i p).1 = false ∧ powerSent (ledStep snd i p).1 = false := by
  unfold ledStep
  cases h : now_then i p "led_state" with
  | error e => simp [powerFired, powerSent]
  | ok v =>
      obtain ⟨sn, sp⟩ := v
      simp only
      split
      · exact ⟨powerFired_ruleFire_led snd sn, powerSent_ruleFire_led snd sn⟩
      · simp [powerFired, powerSent]

/-- Power-drop events of a whole tick body are exactly those of the
power rule: the later rules never emit power-drop events. -/
lemma tryBody_powerEvents (d : ℚ) (snd : Option SendBehavior) (i p : Option Sample) :
    powerFired (tryBody d snd i p).1 = powerFired (powerStep d snd i p).1 ∧
    powerSent (tryBody d snd i p).1 = powerSent (powerStep d snd i p).1 := by
  unfold tryBody pySeq
  cases hp : powerStep d snd i p with
  | mk evs err =>
      cases err with
      | some e => simp
      | none =>
          cases hc : commStep snd i p with
          | mk evs2 err2 =>
              cases err2 with
              | some e2 =>
                  have hcf := powerFired_commStep snd i p
                  rw [hc] at hcf
                  simp [powerFired_append, powerSent_append, hcf.1, hcf.2]
              | none =>
                  cases hl : ledStep snd i p with
                  | mk evs3 err3 =>
                      have hcf := powerFired_commStep snd i p
                      have hlf := powerFired_ledStep snd i p
                      rw [hc] at hcf
                      rw [hl] at hlf
                      simp [powerFired_append, powerSent_append,
                        hcf.1, hcf.2, hlf.1, hlf.2]

/-- Shape of a completed tick when the stored previous sample and the
input are both present: the events are the `try`-body events, followed by
the error record when the body raised; the input is returned unchanged
and becomes the new previous sample. -/
lemma execute_shape (m : StateMonitor) (input prevS : Sample)
    (h : m.previous_data = some prevS) :
    (m.execute (some input)).events =
      (tryBody m.power_delim m.sender (some input) (some prevS)).1 ++
        (match (tryBody m.power_delim m.sender (some input) (some prevS)).2 with
          | none => []
          | some e => [.errorLogged e]) ∧
    (m.execute (some input)).result = .ok (some input) ∧
    (m.execute (some input)).monitor.previous_data = some input := by
  have hsp : seedPrev m (some input) = some prevS := by simp [seedPrev, h]
  unfold StateMonitor.execute
  simp only [hsp]
  cases htb : tryBody m.power_delim m.sender (some input) (some prevS) with
  | mk evs err =>
      cases err with
      | none => simp [htb]
      | some e => simp [htb, handlerDiag]

lemma powerSent_ruleFire_power_ok (pp pn : ℚ) :
    powerSent (ruleFire (some .ok) (.powerDrop pp pn)).1 = true := rfl

/-- Evaluation of the power rule when both samples hold both fields. -/
lemma powerStep_eval {d : ℚ} {snd : Option SendBehavior} {input prev : Sample}
    {ln lp cn cp : ℚ}
    (h1 : input.find "adc_vl_f" = some ⟨ln⟩) (h2 : prev.find "adc_vl_f" = some ⟨lp⟩)
    (h3 : input.find "adc_il_f" = some ⟨cn⟩) (h4 : prev.find "adc_il_f" = some ⟨cp⟩) :
    powerStep d snd (some input) (some prev) =
      if ln * cn < d ∧ lp * cp > d then
        ruleFire snd (.powerDrop (lp * cp) (ln * cn))
      else ([], none) := by
  simp [powerStep, now_then_some h1 h2, now_then_some h3 h4]

/-- Characterization of the power-drop events of a tick in terms of the
sample values, for a monitor that already holds a previous sample. -/
lemma execute_power_char (d : ℚ) (snd : Option SendBehavior) (input prev : Sample)
    (ln lp cn cp : ℚ)
    (h1 : input.find "adc_vl_f" = some ⟨ln⟩) (h2 : prev.find "adc_vl_f" = some ⟨lp⟩)
    (h3 : input.find "adc_il_f" = some ⟨cn⟩) (h4 : prev.find "adc_il_f" = some ⟨cp⟩) :
    (powerFired ((StateMonitor.mk d snd (some prev)).execute (some input)).events = true
      ↔ (ln * cn < d ∧ lp * cp > d)) ∧
    (snd = some .ok →
      (powerSent ((StateMonitor.mk d snd (some prev)).execute (some input)).events = true
        ↔ (ln * cn < d ∧ lp * cp > d))) := by
  obtain ⟨hev, -, -⟩ := execute_shape (StateMonitor.mk d snd (some prev)) input prev rfl
  rw [hev]
  have htail : ∀ t : Option Err,
      powerFired (match t with | none => [] | some e => [.errorLogged e]) = false ∧
      powerSent (match t with | none => [] | some e => [.errorLogged e]) = false := by
    intro t; cases t <;> simp [powerFired, powerSent, Ev.isPowerInfo, Ev.isPowerSent]
  obtain ⟨hpf, hps⟩ := tryBody_powerEvents d snd (some input) (some prev)
  rw [powerFired_append, powerSent_append, (htail _).1, (htail _).2, Bool.or_false,
    Bool.or_false, hpf, hps, powerStep_eval h1 h2 h3 h4]
  by_cases hc : ln * cn < d ∧ lp * cp > d
  · rw [if_pos hc]
    constructor
    · simp [powerFired_ruleFire_power snd (lp * cp) (ln * cn), hc]
    · intro hsnd
      subst hsnd
      simp [powerSent_ruleFire_power_ok (lp * cp) (ln * cn), hc]
  · rw [if_neg hc]
    constructor
    · simp [powerFired, hc]
    · intro _
      simp [powerSent, hc]

/-- C1: for every tick where both the current and the previous sample
hold numeric values for `adc_vl_f` and `adc_il_f`, the power-drop rule
fires (its message is logged, and it is also delivered whenever a working
sender is configured) if and only if `power_now < power_delim` and
`power_previous > power_delim`, where each power is the product of the
two field values; consequently, once power is at or below the threshold
in the previous sample, the rule does not fire again, so a downward
crossing followed by N ticks below the threshold fires exactly once, on
the crossing tick. -/
theorem power_drop_fires_iff_crossing (d : ℚ) (snd : Option SendBehavior)
    (input prev : Sample) (ln lp cn cp : ℚ)
    (h1 : input.find "adc_vl_f" = some ⟨ln⟩) (h2 : prev.find "adc_vl_f" = some ⟨lp⟩)
    (h3 : input.find "adc_il_f" = some ⟨cn⟩) (h4 : prev.find "adc_il_f" = some ⟨cp⟩) :
    (powerFired ((StateMonitor.mk d snd (some prev)).execute (some input)).events = true
      ↔ (ln * cn < d ∧ lp * cp > d)) ∧
    (snd = some .ok →
      (powerSent ((StateMonitor.mk d snd (some prev)).execute (some input)).events = true
        ↔ (ln * cn < d ∧ lp * cp > d))) ∧
    (lp * cp ≤ d →
      powerFired ((StateMonitor.mk d snd (some prev)).execute (some input)).events = false) := by
  obtain ⟨hiff, hsent⟩ := execute_power_char d snd input prev ln lp cn cp h1 h2 h3 h4
  refine ⟨hiff, hsent, fun hle => ?_⟩
  cases hpf : powerFired ((StateMonitor.mk d snd (some prev)).execute (some input)).events with
  | false => rfl
  | true => exact absurd ((hiff.mp hpf).2) (not_lt.mpr hle)

/-- Witness for C1: a concrete downward crossing (power 2 then 0,
threshold 1) fires, both in the log and over a working sender. -/
theorem power_drop_fires_iff_crossing_witness :
    powerFired ((StateMonitor.mk 1 (some .ok) (some crossPre)).execute (some crossIn)).events
      = true ∧
    powerSent ((StateMonitor.mk 1 (some .ok) (some crossPre)).execute (some crossIn)).events
      = true := by
  have h := power_drop_fires_iff_crossing 1 (some .ok) crossIn crossPre 0 2 1 1
    rfl rfl rfl rfl
  exact ⟨h.1.mpr (by norm_num), (h.2.1 rfl).mpr (by norm_num)⟩

/-- C10: both power comparisons are strict: a tick whose current power
equals the threshold exactly, or whose previous power equals the
threshold exactly, does not fire the power-drop rule. -/
theorem power_drop_strict_at_threshold (d : ℚ) (snd : Option SendBehavior)
    (input prev : Sample) (ln lp cn cp : ℚ)
    (h1 : input.find "adc_vl_f" = some ⟨ln⟩) (h2 : prev.find "adc_vl_f" = some ⟨lp⟩)
    (h3 : input.find "adc_il_f" = some ⟨cn⟩) (h4 : prev.find "adc_il_f" = some ⟨cp⟩)
    (heq : ln * cn = d ∨ lp * cp = d) :
    powerFired ((StateMonitor.mk d snd (some prev)).execute (some input)).events = false := by
  obtain ⟨hiff, -⟩ := execute_power_char d snd input prev ln lp cn cp h1 h2 h3 h4
  cases hpf : powerFired ((StateMonitor.mk d snd (some prev)).execute (some input)).events with
  | false => rfl
  | true =>
      obtain ⟨hlt, hgt⟩ := hiff.mp hpf
      cases heq with
      | inl h => exact absurd hlt (h ▸ lt_irrefl d)
      | inr h => exact absurd hgt (h ▸ lt_irrefl d)

/-- Witness for C10: a tick that lands exactly on the threshold
(previous power 2, current power exactly 1 = threshold) does not fire. -/
theorem power_drop_strict_at_threshold_witness :
    powerFired ((StateMonitor.mk 1 none (some crossPre)).execute (some atDelimIn)).events
      = false :=
  power_drop_strict_at_threshold 1 none atDelimIn crossPre 1 2 1 1
    rfl rfl rfl rfl (Or.inl (by norm_num))

/-- C2: whenever a tick of `execute` completes (returns to its caller,
whether the rule evaluation succeeded or raised an error that was
caught), the stored previous sample equals exactly that tick's input
sample. -/
theorem previous_data_stores_input_on_completed_tick (m : StateMonitor)
    (input out : Option Sample)
    (h : (m.execute input).result = .ok out) :
    (m.execute input).monitor.previous_data = input := by
  unfold StateMonitor.execute at h ⊢
  cases htb : tryBody m.power_delim m.sender input (seedPrev m input) with
  | mk evs err =>
      cases err with
      | none => simp [htb]
      | some e =>
          cases hd : handlerDiag input (seedPrev m input) with
          | ok u => simp [htb, hd]
          | error e2 => simp [htb, hd] at h

/-- Witness for C2: a completed tick (here one whose evaluation raised a
caught `KeyError` on an empty sample) stores the input as the new
previous sample. -/
theorem previous_data_stores_input_witness :
    ((StateMonitor.mk 1 none (some [])).execute (some [])).monitor.previous_data
      = some [] :=
  previous_data_stores_input_on_completed_tick _ _ (some []) rfl

/-- Values returned by `now_then` against the seeded first-tick previous
sample (the input itself) are equal pairwise. -/
lemma now_then_self {s : Sample} {k : String} {a b : ℚ}
    (h : now_then (some s) (some s) k = .ok (a, b)) : a = b := by
  cases hf : s.find k with
  | none => simp [now_then, subscr, hf] at h
  | some v =>
      simp [now_then, subscr, hf] at h
      exact h.1.symm.trans h.2

/-- On a tick that compares a sample against itself, the power rule
emits nothing. -/
lemma powerStep_self (d : ℚ) (snd : Option SendBehavior) (s : Sample) :
    (powerStep d snd (some s) (some s)).1 = [] := by
  unfold powerStep
  cases h1 : now_then (some s) (some s) "adc_vl_f" with
  | error e => simp
  | ok v =>
      obtain ⟨ln, lp⟩ := v
      cases h2 : now_then (some s) (some s) "adc_il_f" with
      | error e => simp
      | ok w =>
          obtain ⟨cn, cp⟩ := w
          have e1 : ln = lp := now_then_self h1
          have e2 : cn = cp := now_then_self h2
          subst e1; subst e2
          simp only
          rw [if_neg (by rintro ⟨hl, hg⟩; exact lt_irrefl d (hg.trans hl))]

/-- On a tick that compares a sample against itself, the communication
rule emits nothing. -/
lemma commStep_self (snd : Option SendBehavior) (s : Sample) :
    (commStep snd (some s) (some s)).1 = [] := by
  unfold commStep
  cases h1 : now_then (some s) (some s) "ping" with
  | error e => simp
  | ok v =>
      obtain ⟨cn, cp⟩ := v
      have e1 : cn = cp := now_then_self h1
      subst e1
      simp only
      rw [if_neg (by rintro ⟨hne, he⟩; exact hne he)]

/-- On a tick that compares a sample against itself, the LED rule emits
nothing. -/
lemma ledStep_self (snd : Option SendBehavior) (s : Sample) :
    (ledStep snd (some s) (some s)).1 = [] := by
  unfold ledStep
  cases h1 : now_then (some s) (some s) "led_state" with
  | error e => simp
  | ok v =>
      obtain ⟨sn, sp⟩ := v
      have e1 : sn = sp := now_then_self h1
      subst e1
      simp only
      rw [if_neg (by rintro ⟨-, hne⟩; exact hne rfl)]

/-- On a tick that compares a sample against itself, the whole rule body
emits nothing. -/
lemma tryBody_self_events (d : ℚ) (snd : Option SendBehavior) (s : Sample) :
    (tryBody d snd (some s) (some s)).1 = [] := by
  have hp := powerStep_self d snd s
  have hc := commStep_self snd s
  have hl := ledStep_self snd s
  unfold tryBody pySeq
  cases hps : powerStep d snd (some s) (some s) with
  | mk evs err =>
      rw [hps] at hp
      subst hp
      cases err with
      | some e => rfl
      | none =>
          cases hcs : commStep snd (some s) (some s) with
          | mk evs2 err2 =>
              rw [hcs] at hc
              subst hc
              cases err2 with
              | some e2 => rfl
              | none =>
                  cases hls : ledStep snd (some s) (some s) with
                  | mk evs3 err3 =>
                      rw [hls] at hl
                      subst hl
                      rfl

/-- C3: on the very first tick (no stored previous sample) a
`StateMonitor` neither logs a rule firing nor dispatches any message,
whatever the input holds: the tick only seeds the comparison baseline
(it may record an evaluation error, which is not a triggered event). -/
theorem first_tick_fires_nothing (m : StateMonitor) (input : Option Sample)
    (h : m.previous_data = none) :
    ((m.execute input).events.all fun ev => !ev.isTrigger) = true := by
  obtain ⟨d, snd, pd⟩ := m
  simp only at h
  subst h
  cases input with
  | none => rfl
  | some s =>
      have hsp : seedPrev (StateMonitor.mk d snd none) (some s) = some s := rfl
      unfold StateMonitor.execute
      simp only [hsp]
      cases htb : tryBody d snd (some s) (some s) with
      | mk evs err =>
          have he : evs = [] := by
            have h0 := tryBody_self_events d snd s
            rw [htb] at h0
            exact h0
          subst he
          cases err with
          | none => simp
          | some e => simp [handlerDiag, Ev.isTrigger]

/-- Witness for C3: a first tick whose input would trigger every rule
against the later baseline fires nothing. -/
theorem first_tick_fires_nothing_witness :
    (((StateMonitor.mk 1 (some .ok) none).execute (some fullIn)).events.all
      fun ev => !ev.isTrigger) = true :=
  first_tick_fires_nothing (StateMonitor.mk 1 (some .ok) none) (some fullIn) rfl

lemma commFired_ruleFire_comm (snd : Option SendBehavior) :
    commFired (ruleFire snd .commLoss).1 = true := by
  cases snd with
  | none => rfl
  | some b => cases b <;> rfl

lemma ledFired_ruleFire_led (snd : Option SendBehavior) (v : ℚ) :
    ledFired (ruleFire snd (.criticalLed v)).1 = true := by
  cases snd with
  | none => rfl
  | some b => cases b <;> rfl

/-- C4: for every tick where both samples hold the `ping` field, the
communication-loss rule fires if and only if the current ping value is
truthy (nonzero) and the previous one falsy (zero) — the
reachable-to-unreachable edge; it does not fire while unreachability
persists (previous already nonzero) nor on recovery (current zero). -/
theorem comm_loss_fires_iff_edge (snd : Option SendBehavior)
    (input prev : Sample) (cn cp : ℚ)
    (h1 : input.find "ping" = some ⟨cn⟩) (h2 : prev.find "ping" = some ⟨cp⟩) :
    (commFired (commStep snd (some input) (some prev)).1 = true ↔ (cn ≠ 0 ∧ cp = 0)) ∧
    (cp ≠ 0 → commFired (commStep snd (some input) (some prev)).1 = false) ∧
    (cn = 0 → commFired (commStep snd (some input) (some prev)).1 = false) := by
  have heval : commStep snd (some input) (some prev) =
      if cn ≠ 0 ∧ cp = 0 then ruleFire snd .commLoss else ([], none) := by
    simp [commStep, now_then_some h1 h2]
  rw [heval]
  by_cases hc : cn ≠ 0 ∧ cp = 0
  · rw [if_pos hc]
    exact ⟨by simp [commFired_ruleFire_comm snd, hc],
      fun hcp => absurd hc.2 hcp,
      fun hcn => absurd hcn hc.1⟩
  · rw [if_neg hc]
    refine ⟨?_, fun _ => rfl, fun _ => rfl⟩
    simp only [commFired, List.any_nil]
    exact ⟨fun hf => absurd hf (by simp), fun hcond => absurd hcond hc⟩

/-- Witness for C4: ping going from `0` to `1` fires the
communication-loss rule; the same rule applied with the roles of the
samples swapped (a recovery) does not fire. -/
theorem comm_loss_fires_iff_edge_witness :
    commFired (commStep none (some pingIn) (some pingPre)).1 = true ∧
    commFired (commStep none (some pingPre) (some pingIn)).1 = false := by
  have hfire := comm_loss_fires_iff_edge none pingIn pingPre 1 0 rfl rfl
  have hrec := comm_loss_fires_iff_edge none pingPre pingIn 0 1 rfl rfl
  exact ⟨hfire.1.mpr (by norm_num), hrec.2.2 rfl⟩

/-- C5: for every tick where both samples hold the `led_state` field,
the critical-device-state rule fires if and only if the current code is
`≥ 12` and differs from the previous code: it does not re-fire while
stuck at the same critical code, and fires again on any change to a
different code that is still `≥ 12`. -/
theorem critical_led_fires_iff_changed (snd : Option SendBehavior)
    (input prev : Sample) (sn sp : ℚ)
    (h1 : input.find "led_state" = some ⟨sn⟩) (h2 : prev.find "led_state" = some ⟨sp⟩) :
    (ledFired (ledStep snd (some input) (some prev)).1 = true ↔ (sn ≥ 12 ∧ sn ≠ sp)) ∧
    (sn = sp → ledFired (ledStep snd (some input) (some prev)).1 = false) := by
  have heval : ledStep snd (some input) (some prev) =
      if sn ≥ 12 ∧ sn ≠ sp then ruleFire snd (.criticalLed sn) else ([], none) := by
    simp [ledStep, now_then_some h1 h2]
  rw [heval]
  by_cases hc : sn ≥ 12 ∧ sn ≠ sp
  · rw [if_pos hc]
    exact ⟨by simp [ledFired_ruleFire_led snd sn, hc], fun he => absurd he hc.2⟩
  · rw [if_neg hc]
    refine ⟨?_, fun _ => rfl⟩
    simp only [ledFired, List.any_nil]
    exact ⟨fun hf => absurd hf (by simp), fun hcond => absurd hcond hc⟩

/-- Witness for C5: LED code changing from `12` to `13` (both critical)
fires again; a tick stuck at `13` does not fire. -/
theorem critical_led_fires_iff_changed_witness :
    ledFired (ledStep none (some ledIn) (some ledPre)).1 = true ∧
    ledFired (ledStep none (some ledIn) (some ledIn)).1 = false := by
  have hchange := critical_led_fires_iff_changed none ledIn ledPre 13 12 rfl rfl
  have hstuck := critical_led_fires_iff_changed none ledIn ledIn 13 13 rfl rfl
  exact ⟨hchange.1.mpr (by norm_num), hstuck.2 rfl⟩

/-- Counterexample to C6: a tick whose samples both hold `ping` with a
pending reachable-to-unreachable edge (and a critical LED change), but
miss `adc_vl_f`: the `KeyError` raised by the power rule aborts the
whole `try` body, so neither the communication rule nor the LED rule is
evaluated — the only event is the aggregated error record. -/
theorem rule_error_aborts_remaining_rules_cex :
    noPowerIn.find "ping" = some ⟨1⟩ ∧
    noPowerPre.find "ping" = some ⟨0⟩ ∧
    noPowerIn.find "led_state" = some ⟨13⟩ ∧
    noPowerPre.find "led_state" = some ⟨5⟩ ∧
    commFired ((StateMonitor.mk 1 none (some noPowerPre)).execute (some noPowerIn)).events
      = false ∧
    ledFired ((StateMonitor.mk 1 none (some noPowerPre)).execute (some noPowerIn)).events
      = false ∧
    ((StateMonitor.mk 1 none (some noPowerPre)).execute (some noPowerIn)).events
      = [.errorLogged (.keyError "adc_vl_f")] :=
  ⟨rfl, rfl, rfl, rfl, rfl, rfl, rfl⟩

/-- C6 as amended: rule evaluation is not per-rule fault-isolated but
tick-level fault-isolated: when the first rule raises (here: the power
rule's `adc_vl_f` key is missing from the current sample), the remaining
rules of that tick are not evaluated; a single aggregated error is
logged and no exception escapes `execute`, which still returns its input
unchanged. -/
theorem rule_error_aborts_remaining_rules (d : ℚ) (snd : Option SendBehavior)
    (input prev : Sample) (h : input.find "adc_vl_f" = none) :
    ((StateMonitor.mk d snd (some prev)).execute (some input)).events
      = [.errorLogged (.keyError "adc_vl_f")] ∧
    ((StateMonitor.mk d snd (some prev)).execute (some input)).result
      = .ok (some input) := by
  have hps : powerStep d snd (some input) (some prev)
      = ([], some (.keyError "adc_vl_f")) := by
    simp [powerStep, now_then_missing h]
  have htb : tryBody d snd (some input) (some prev)
      = ([], some (.keyError "adc_vl_f")) := by
    simp [tryBody, pySeq, hps]
  obtain ⟨hev, hres, -⟩ := execute_shape (StateMonitor.mk d snd (some prev)) input prev rfl
  rw [htb] at hev
  exact ⟨hev, hres⟩

/-- Witness for the amended C6. -/
theorem rule_error_aborts_remaining_rules_witness :
    ((StateMonitor.mk 1 none (some noPowerPre)).execute (some noPowerIn)).events
      = [.errorLogged (.keyError "adc_vl_f")] ∧
    ((StateMonitor.mk 1 none (some noPowerPre)).execute (some noPowerIn)).result
      = .ok (some noPowerIn) :=
  rule_error_aborts_remaining_rules 1 none noPowerIn noPowerPre rfl

/-- Counterexample to C7: a tick where the power rule fires but its
delivery raises, while the samples also carry a reachable-to-unreachable
`ping` edge: the delivery failure aborts the rest of the tick, so the
communication rule is never evaluated and its message never sent, even
though the tick itself completes normally. -/
theorem send_failure_blocks_remaining_rules_cex :
    fullIn.find "ping" = some ⟨1⟩ ∧
    fullPre.find "ping" = some ⟨0⟩ ∧
    powerFired ((StateMonitor.mk 1 (some .raises) (some fullPre)).execute (some fullIn)).events
      = true ∧
    commFired ((StateMonitor.mk 1 (some .raises) (some fullPre)).execute (some fullIn)).events
      = false ∧
    ((StateMonitor.mk 1 (some .raises) (some fullPre)).execute (some fullIn)).result
      = .ok (some fullIn) := by
  have hps : powerStep 1 (some .raises) (some fullIn) (some fullPre)
      = ([.info (.powerDrop (2 * 1) (0 * 1))], some .sendError) := by
    rw [@powerStep_eval 1 (some .raises) fullIn fullPre 0 2 1 1 rfl rfl rfl rfl,
      if_pos (by norm_num)]
    rfl
  have htb : tryBody 1 (some .raises) (some fullIn) (some fullPre)
      = ([.info (.powerDrop (2 * 1) (0 * 1))], some .sendError) := by
    simp [tryBody, pySeq, hps]
  obtain ⟨hev, hres, -⟩ :=
    execute_shape (StateMonitor.mk 1 (some .raises) (some fullPre)) fullIn fullPre rfl
  rw [htb] at hev
  refine ⟨rfl, rfl, ?_, ?_, hres⟩
  · rw [hev]; rfl
  · rw [hev]; rfl

/-- C7 as amended: a delivery failure while sending one event's message
propagates out of the rule body, so the remaining rules of that tick are
not evaluated and their messages are not sent; the failure is caught at
the tick boundary (nothing escapes `execute`), logged once, and the
baseline still advances to the current sample. -/
theorem send_failure_caught_at_tick_boundary (d : ℚ) (input prev : Sample)
    (ln lp cn cp : ℚ)
    (h1 : input.find "adc_vl_f" = some ⟨ln⟩) (h2 : prev.find "adc_vl_f" = some ⟨lp⟩)
    (h3 : input.find "adc_il_f" = some ⟨cn⟩) (h4 : prev.find "adc_il_f" = some ⟨cp⟩)
    (hc : ln * cn < d ∧ lp * cp > d) :
    ((StateMonitor.mk d (some .raises) (some prev)).execute (some input)).events
      = [.info (.powerDrop (lp * cp) (ln * cn)), .errorLogged .sendError] ∧
    ((StateMonitor.mk d (some .raises) (some prev)).execute (some input)).result
      = .ok (some input) ∧
    ((StateMonitor.mk d (some .raises) (some prev)).execute
      (some input)).monitor.previous_data = some input := by
  have hps : powerStep d (some .raises) (some input) (some prev)
      = ([.info (.powerDrop (lp * cp) (ln * cn))], some .sendError) := by
    rw [powerStep_eval h1 h2 h3 h4, if_pos hc]
    rfl
  have htb : tryBody d (some .raises) (some input) (some prev)
      = ([.info (.powerDrop (lp * cp) (ln * cn))], some .sendError) := by
    simp [tryBody, pySeq, hps]
  obtain ⟨hev, hres, hprev⟩ :=
    execute_shape (StateMonitor.mk d (some .raises) (some prev)) input prev rfl
  rw [htb] at hev
  exact ⟨hev, hres, hprev⟩

/-- Witness for the amended C7. -/
theorem send_failure_caught_at_tick_boundary_witness :
    ((StateMonitor.mk 1 (some .raises) (some fullPre)).execute (some fullIn)).events
      = [.info (.powerDrop (2 * 1) (0 * 1)), .errorLogged .sendError] ∧
    ((StateMonitor.mk 1 (some .raises) (some fullPre)).execute (some fullIn)).result
      = .ok (some fullIn) ∧
    ((StateMonitor.mk 1 (some .raises) (some fullPre)).execute
      (some fullIn)).monitor.previous_data = some fullIn :=
  send_failure_caught_at_tick_boundary 1 fullIn fullPre 0 2 1 1
    rfl rfl rfl rfl (by norm_num)

/-- C8 evaluated at its failing input: with `input_data=None` (the
documented default), the caught evaluation error sends `execute` into
its `except` handler, whose diagnostic loop calls `.items()` on `None`
and raises `AttributeError` out of `execute` — both on a first tick and
on a later tick that already holds a previous sample. -/
theorem execute_raises_on_none_input :
    ((StateMonitor.mk 1 none none).execute none).result = .error .attributeError ∧
    ((StateMonitor.mk 1 none (some fullPre)).execute none).result
      = .error .attributeError :=
  ⟨rfl, rfl⟩

/-- Counterexample to C9: `SlackSender.send` tests `status != 200`, not
"non-2xx": the 2xx status 201 is treated as a delivery failure (warning
logged with a logger attached, `RuntimeWarning` raised without one). -/
theorem slack_send_2xx_treated_as_failure_cex :
    is2xx 201 ∧
    SlackSender.send true 201 = (true, none) ∧
    SlackSender.send false 201 = (false, some .runtimeWarning) :=
  ⟨by decide, rfl, rfl⟩

/-- C9 as amended: a non-200 HTTP response (rather than non-2xx) is
treated as a delivery failure — logged as a warning when a logger is
attached, otherwise raised as `RuntimeWarning` to the caller, never
silently dropped — and a 200 response is not treated as a failure. -/
theorem slack_send_failure_handling (hasLogger : Bool) (status : Nat) :
    (status ≠ 200 →
      (hasLogger = true → SlackSender.send hasLogger status = (true, none)) ∧
      (hasLogger = false →
        SlackSender.send hasLogger status = (false, some .runtimeWarning))) ∧
    (status = 200 → SlackSender.send hasLogger status = (false, none)) := by
  constructor
  · intro hne
    constructor
    · intro hl; subst hl; simp [SlackSender.send, hne]
    · intro hl; subst hl; simp [SlackSender.send, hne]
  · intro he; subst he; simp [SlackSender.send]

/-- Witness for the amended C9: a 404 response warns with a logger and
raises without one; a 200 response is no failure. -/
theorem slack_send_failure_handling_witness :
    SlackSender.send true 404 = (true, none) ∧
    SlackSender.send false 404 = (false, some .runtimeWarning) ∧
    SlackSender.send false 200 = (false, none) :=
  ⟨((slack_send_failure_handling true 404).1 (by decide)).1 rfl,
    ((slack_send_failure_handling false 404).1 (by decide)).2 rfl,
    (slack_send_failure_handling false 200).2 rfl⟩
